import Mathlib

/-!
Shallow embedding of the `mqtt-artemis` iot-load-tester core:
`models.py` (status enum), `job_manager.py` (job table, creation,
run supervision, stop, cleanup), `locustfile.py` (scenario tick and
payload generation) and the three protocol drivers
(`protocols/mqtt_device.py`, `protocols/amqp_device.py`,
`protocols/http_client.py`).

Machine integers are modelled as `Nat`/`Int`, Python floats as `Rat`,
timestamps as epoch seconds (`Int`), and fallible Python code as
`Except`-valued functions.
-/

namespace IotLoadTester

/-- Job execution status (`models.py`, class `JobStatus`). -/
inductive JobStatus where
  | pending
  | running
  | completed
  | failed
  | stopped
deriving DecidableEq, Repr

/-- A status is terminal when it is COMPLETED, FAILED or STOPPED. -/
def terminal (s : JobStatus) : Prop :=
  s = JobStatus.completed ∨ s = JobStatus.failed ∨ s = JobStatus.stopped

instance : DecidablePred terminal := fun s => by
  unfold terminal; infer_instance

/-- Internal job representation (`job_manager.py`, dataclass `Job`);
the fields relevant to the claims.  `started_at`/`ended_at` are epoch
seconds. -/
structure Job where
  job_id : String
  status : JobStatus
  started_at : Option Int := none
  ended_at : Option Int := none
  error : Option String := none
deriving DecidableEq, Repr

/-- `job_manager.py`: `MAX_CONCURRENT_JOBS = 5`. -/
def MAX_CONCURRENT_JOBS : Nat := 5

/-- `job_manager.py`: `JOB_TTL_SECONDS = 3600`. -/
def JOB_TTL_SECONDS : Int := 3600

/-- `JobManager.running_count`: count of jobs whose status is RUNNING.
The Python dict `self._jobs` (insertion ordered, unique ids) is modelled
as a list of `Job`s. -/
def running_count (jobs : List Job) : Nat :=
  jobs.countP (fun j => decide (j.status = JobStatus.running))

/-- Count of jobs whose status is PENDING (used to analyse the
concurrency ceiling; not a function of the source, but a measure over
the embedded state). -/
def pending_count (jobs : List Job) : Nat :=
  jobs.countP (fun j => decide (j.status = JobStatus.pending))

/-- `JobManager.create_job` (job_manager.py lines 57-72), as executed
under the manager's lock: reject with the capacity `ValueError` if
`running_count >= MAX_CONCURRENT_JOBS`, otherwise insert a fresh PENDING
job into the table and schedule its run.  Returns the result together
with the resulting job table (unchanged on rejection). -/
def create_job (jobs : List Job) (freshId : String) :
    Except String Job × List Job :=
  if MAX_CONCURRENT_JOBS ≤ running_count jobs then
    (Except.error "Maximum concurrent jobs (5) reached", jobs)
  else
    let job : Job := { job_id := freshId, status := JobStatus.pending }
    (Except.ok job, jobs ++ [job])

/-- Expiry test from `JobManager.cleanup_expired` (job_manager.py line
228): `job.ended_at and (now - job.ended_at).total_seconds() > JOB_TTL_SECONDS`. -/
def jobExpired (now : Int) (j : Job) : Bool :=
  match j.ended_at with
  | none => false
  | some e => decide (JOB_TTL_SECONDS < now - e)

/-- `JobManager.cleanup_expired` (job_manager.py lines 221-234): collect
the ids of expired jobs, delete them from the table, return the count
removed.  Deletion by unique id from the insertion-ordered dict is a
filter on the job list. -/
def cleanup_expired (jobs : List Job) (now : Int) : List Job × Nat :=
  let expired := jobs.filter (fun j => jobExpired now j)
  (jobs.filter (fun j => !jobExpired now j), expired.length)

/-- Python string slice `s[:n]` over the character sequence. -/
def pySliceTo (s : String) (n : Nat) : String :=
  ⟨s.data.take n⟩

/-- Python string slice `s[-n:]` (the last `n` characters, the whole
string when `n` exceeds its length). -/
def pySliceLast (s : String) (n : Nat) : String :=
  ⟨s.data.drop (s.data.length - n)⟩

/-- Outcome of awaiting the Locust child process in `JobManager._run_job`:
either `process.wait()` finished within `runtimeSeconds + 60` with an
exit code and (already decoded) stderr contents, or `asyncio.wait_for`
raised `TimeoutError`. -/
inductive ProcOutcome where
  | exited (rc : Int) (stderrText : String)
  | timedOut
deriving DecidableEq, Repr

/-- Result of one supervised run: final status, error detail, whether the
process was force-killed and reaped, and whether `ended_at` was set (the
`finally` block). -/
structure RunResult where
  status : JobStatus
  error : Option String
  killedAndReaped : Bool
  endedAtSet : Bool
deriving DecidableEq, Repr

/-- `JobManager._run_job` outcome handling (job_manager.py lines
105-158): exit code 0 gives COMPLETED; a non-zero exit gives FAILED with
`f"Exit code {rc}: {stderr[:500]}"`; a timeout kills and reaps the
process and gives FAILED with "Job timed out".  `ended_at` is set in the
`finally` block on every path. -/
def runJobOutcome (o : ProcOutcome) : RunResult :=
  match o with
  | ProcOutcome.exited rc stderrText =>
      if rc = 0 then
        { status := JobStatus.completed, error := none,
          killedAndReaped := false, endedAtSet := true }
      else
        { status := JobStatus.failed,
          error := some ("Exit code " ++ toString rc ++ ": " ++
            pySliceTo stderrText 500),
          killedAndReaped := false, endedAtSet := true }
  | ProcOutcome.timedOut =>
      { status := JobStatus.failed, error := some "Job timed out",
        killedAndReaped := true, endedAtSet := true }

/-- Modelled from the spec (a refinement foil for the claim about the
captured error detail): the error string that would capture the LAST 500
characters of stderr, per "the last 500 characters of the process's
error stream captured as the error detail".  `runJobOutcome` above is
the source behaviour; this definition follows the spec's words. -/
def specNonZeroExitError (rc : Int) (stderrText : String) : String :=
  "Exit code " ++ toString rc ++ ": " ++ pySliceLast stderrText 500

/-! ## Per-job status transition system (claims C1, C2)

`_run_job` supervises one job; `stop_job` can run concurrently with it.
The shared mutable state of one job, as far as its status is concerned,
is the status itself plus the child-process state; the supervisor's own
control point is a phase (before starting / awaiting the process /
finished supervision). -/

/-- State of the Locust child process of one job. -/
inductive ProcState where
  | notSpawned
  | alive
  | exited (rc : Int)
deriving DecidableEq, Repr

/-- Supervisor control point inside `_run_job`. -/
inductive Phase where
  | beforeRun
  | awaitingProc
  | done
deriving DecidableEq, Repr

/-- Shared state of one job: status field, supervisor phase and process
state. -/
structure JState where
  status : JobStatus
  phase : Phase
  proc : ProcState
deriving DecidableEq, Repr

/-- Initial state of a freshly created job (`create_job` makes it
PENDING; the run task has not started; no process yet). -/
def jInit : JState :=
  { status := JobStatus.pending, phase := Phase.beforeRun,
    proc := ProcState.notSpawned }

/-- Interleaved small steps on one job's shared state.

* `start` — `_run_job` lines 77-103: set RUNNING, spawn the process.
* `procExit` — environment: the child process terminates on its own
  with exit code `rc`.
* `observe` — `_run_job` lines 108-125: `wait_for` returns, set
  COMPLETED on zero exit and FAILED otherwise.
* `timeoutKill` — `_run_job` lines 127-139: `wait_for` timed out while
  the process was still alive; kill, reap and set FAILED.
* `stopJobCall` — `stop_job` lines 197-215: the guard requires a
  RUNNING status and a process handle; `send_signal(SIGTERM)` is
  delivered and the process dies with some exit code `rc`, but the next
  statement `job.process.wait(timeout=10)` raises `TypeError` — the
  handle is an `asyncio.subprocess.Process`, whose `wait()` takes no
  `timeout` argument — and the `except subprocess.TimeoutExpired` does
  not catch it, so the `job.status = JobStatus.STOPPED` assignment at
  line 210 is dead code: the status and the supervisor phase are
  unchanged, and the uncaught exception propagates to `stop_job`'s
  caller. -/
inductive JStep : JState → JState → Prop
  | start (s : JState) (h : s.phase = Phase.beforeRun) :
      JStep s ⟨JobStatus.running, Phase.awaitingProc, ProcState.alive⟩
  | procExit (s : JState) (rc : Int) (h : s.proc = ProcState.alive) :
      JStep s ⟨s.status, s.phase, ProcState.exited rc⟩
  | observe (s : JState) (rc : Int) (hp : s.phase = Phase.awaitingProc)
      (he : s.proc = ProcState.exited rc) :
      JStep s ⟨if rc = 0 then JobStatus.completed else JobStatus.failed,
        Phase.done, s.proc⟩
  | timeoutKill (s : JState) (hp : s.phase = Phase.awaitingProc)
      (ha : s.proc = ProcState.alive) :
      JStep s ⟨JobStatus.failed, Phase.done, ProcState.exited (-9)⟩
  | stopJobCall (s : JState) (rc : Int) (hs : s.status = JobStatus.running)
      (ha : s.proc = ProcState.alive) :
      JStep s ⟨s.status, s.phase, ProcState.exited rc⟩

/-- States reachable from the freshly created job by interleaving the
supervision task, the environment and `stop_job`. -/
def JReach (s : JState) : Prop :=
  Relation.ReflTransGen JStep jInit s

/-- Invariant tying the supervisor phase to the observable status.  The
status is mutated only by the supervision task itself (`stop_job`'s
STOPPED assignment being dead code), so it is determined up to the
supervisor's control point. -/
def JInv (s : JState) : Prop :=
  (s.phase = Phase.beforeRun →
    s.status = JobStatus.pending ∧ s.proc = ProcState.notSpawned) ∧
  (s.phase = Phase.awaitingProc → s.status = JobStatus.running) ∧
  (s.phase = Phase.done →
    s.status = JobStatus.completed ∨ s.status = JobStatus.failed)


/-! ## Job-table transition system (claim C1)

`create_job` runs under the manager's asyncio lock, but it only
*schedules* `_run_job` with `asyncio.create_task`; the scheduled task
sets the job RUNNING when the event loop later runs it.  The steps below
interleave admissions with the launched tasks' own status mutations.
When `strictStart = true`, an admission additionally requires that every
previously admitted job has already started (no PENDING job in the
table) — the regime in which each `create_task` is scheduled before the
next `create_job` call. -/

/-- One step of the job-manager system on the job table.

* `create` — a `create_job` call is admitted: the RUNNING count is below
  the ceiling, a fresh PENDING job is appended.
* `reject` — a `create_job` call hits the ceiling: `ValueError`, table
  unchanged.
* `startJob` — a scheduled `_run_job` task begins: its PENDING job
  becomes RUNNING.
* `finishJob` — supervision of a RUNNING job concludes with COMPLETED or
  FAILED.
* `stopRunning` — the RUNNING→STOPPED assignment written in `stop_job`
  (line 210).  In the source that assignment is dead code — the
  preceding `job.process.wait(timeout=10)` raises an uncaught
  `TypeError` on the asyncio Process — so this constructor only
  over-approximates the reachable set; the ceiling invariant below is
  proved for the larger relation, and the C1 counterexample does not use
  it. -/
inductive JMStep (strictStart : Bool) : List Job → List Job → Prop
  | create (s : List Job) (j : Job)
      (h : running_count s < MAX_CONCURRENT_JOBS)
      (hj : j.status = JobStatus.pending)
      (hp : strictStart = true → pending_count s = 0) :
      JMStep strictStart s (s ++ [j])
  | reject (s : List Job) (h : MAX_CONCURRENT_JOBS ≤ running_count s) :
      JMStep strictStart s s
  | startJob (s₁ s₂ : List Job) (j : Job)
      (hj : j.status = JobStatus.pending) :
      JMStep strictStart (s₁ ++ j :: s₂)
        (s₁ ++ { j with status := JobStatus.running } :: s₂)
  | finishJob (s₁ s₂ : List Job) (j : Job) (st : JobStatus)
      (hj : j.status = JobStatus.running)
      (hst : st = JobStatus.completed ∨ st = JobStatus.failed) :
      JMStep strictStart (s₁ ++ j :: s₂) (s₁ ++ { j with status := st } :: s₂)
  | stopRunning (s₁ s₂ : List Job) (j : Job)
      (hj : j.status = JobStatus.running) :
      JMStep strictStart (s₁ ++ j :: s₂)
        (s₁ ++ { j with status := JobStatus.stopped } :: s₂)

/-- Job tables reachable from the empty table. -/
def JMReach (strictStart : Bool) (s : List Job) : Prop :=
  Relation.ReflTransGen (JMStep strictStart) [] s

/-- Invariant of the strict-start regime: at most one PENDING job at a
time, and RUNNING plus PENDING jobs together never exceed the ceiling. -/
def JMInv (s : List Job) : Prop :=
  pending_count s ≤ 1 ∧
    running_count s + pending_count s ≤ MAX_CONCURRENT_JOBS


/-- A PENDING job template and its RUNNING form, used to exhibit a
concrete interleaving. -/
def jobP : Job := { job_id := "j", status := JobStatus.pending }

/-- RUNNING form of `jobP`. -/
def jobR : Job := { job_id := "j", status := JobStatus.running }

/-! ## Protocol drivers (`protocols/`) -/

/-- Python truthiness of `Optional[int]`: `None` and `0` are falsy. -/
def pyTruthyOptNat (a : Option Nat) : Bool :=
  match a with
  | none => false
  | some n => decide (n ≠ 0)

/-- Python `a or b` for `a : Optional[int]`, `b : int` (used by
`(qos or self.qos)` in `MQTTDevice.publish`). -/
def pyOrQos (a : Option Nat) (b : Nat) : Nat :=
  match a with
  | none => b
  | some n => if n = 0 then b else n

/-- Python `a or b` for two `Optional[int]`s (used by
`message_expiry or self.message_expiry_seconds`). -/
def pyOrOpt (a b : Option Nat) : Option Nat :=
  if pyTruthyOptNat a then a else b

/-- `MQTTDevice` instance state (mqtt_device.py): the fields that
`publish`/`subscribe` read.  `connected` is `self._connected`. -/
structure MQTTDevice where
  device_id : String
  qos : Nat
  message_expiry_seconds : Option Nat := none
  connected : Bool
deriving DecidableEq, Repr

/-- Observable effect of a successful `MQTTDevice.publish`: the wire
message parameters and whether the 5-second `wait_for_publish`
acknowledgment wait was performed. -/
structure MQTTPublishEffect where
  topic : String
  sentQos : Nat
  retainFlag : Bool
  expiry : Option Nat
  waitedForAck : Bool
deriving DecidableEq, Repr

/-- `MQTTDevice.publish` (mqtt_device.py lines 142-172): raise
`ConnectionError("Not connected")` when not connected; otherwise send at
`qos if qos is not None else self.qos`, attach
`message_expiry or self.message_expiry_seconds` when truthy, and wait
for the acknowledgment iff `(qos or self.qos) > 0`. -/
def MQTTDevice.publish (st : MQTTDevice) (topic : String)
    (qos : Option Nat) (retainFlag : Bool) (message_expiry : Option Nat) :
    Except String MQTTPublishEffect :=
  if st.connected = false then
    Except.error "Not connected"
  else
    let expiry := pyOrOpt message_expiry st.message_expiry_seconds
    Except.ok
      { topic := topic
        sentQos := match qos with | some q => q | none => st.qos
        retainFlag := retainFlag
        expiry := if pyTruthyOptNat expiry then expiry else none
        waitedForAck := decide (0 < pyOrQos qos st.qos) }

/-- `MQTTDevice.subscribe` (mqtt_device.py lines 174-179). -/
def MQTTDevice.subscribe (st : MQTTDevice) (topic : String)
    (qos : Option Nat) : Except String Nat :=
  if st.connected = false then
    Except.error "Not connected"
  else
    Except.ok (match qos with | some q => q | none => st.qos)

/-- `AMQPDevice` instance state (amqp_device.py). -/
structure AMQPDevice where
  device_id : String
  connected : Bool
deriving DecidableEq, Repr

/-- `AMQPDevice.publish` (amqp_device.py lines 67-84): raise
`ConnectionError("Not connected")` when not connected; the send path is
a stub that builds a message and transmits nothing. -/
def AMQPDevice.publish (st : AMQPDevice) (address : String) :
    Except String Unit :=
  if st.connected = false then
    Except.error "Not connected"
  else
    Except.ok ()

/-- `AMQPDevice.subscribe` (amqp_device.py lines 86-92). -/
def AMQPDevice.subscribe (st : AMQPDevice) (address : String) :
    Except String Unit :=
  if st.connected = false then
    Except.error "Not connected"
  else
    Except.ok ()

/-- `HTTPClient` instance state (http_client.py). -/
structure HTTPClient where
  base_url : String
  device_id : String
  connected : Bool
deriving DecidableEq, Repr

/-- Python-level errors distinguished by the HTTP driver claims. -/
inductive PyError where
  | connectionError (msg : String)
  | valueError (msg : String)
  | attributeError (attr : String)
deriving DecidableEq, Repr

/-- `HTTPClient.publish` (http_client.py lines 49-79): raise
`ConnectionError("Not connected")` when not connected, then dispatch on
the HTTP method (default "POST"); an unknown method is a `ValueError`.
The claims only need which request, if any, is issued. -/
def HTTPClient.publish (st : HTTPClient) (path : String)
    (method : String := "POST") : Except PyError String :=
  if st.connected = false then
    Except.error (PyError.connectionError "Not connected")
  else if method.toUpper = "POST" then Except.ok ("POST " ++ path)
  else if method.toUpper = "PUT" then Except.ok ("PUT " ++ path)
  else if method.toUpper = "GET" then Except.ok ("GET " ++ path)
  else if method.toUpper = "DELETE" then Except.ok ("DELETE " ++ path)
  else Except.error (PyError.valueError ("Unsupported method: " ++ method))

/-- Names bound in the class body of `HTTPClient` (http_client.py lines
9-96): its methods and properties.  There is no `unsubscribe` among
them. -/
def HTTPClient.classAttrs : List String :=
  ["__init__", "connect", "disconnect", "publish", "subscribe",
    "get", "post", "is_connected"]

/-- `HTTPClient.subscribe` (http_client.py lines 81-83): the body is
`pass` — a no-op that touches neither the connection state nor the
network, for any connection state. -/
def HTTPClient.subscribe (st : HTTPClient) (path : String) :
    Except PyError Unit :=
  Except.ok ()

/-- Python attribute dispatch of `client.unsubscribe(topic)` on an
`HTTPClient`: the class defines no `unsubscribe` attribute (see
`HTTPClient.classAttrs`), so the lookup raises `AttributeError`. -/
def HTTPClient.unsubscribeCall (st : HTTPClient) (path : String) :
    Except PyError Unit :=
  if "unsubscribe" ∈ HTTPClient.classAttrs then
    Except.ok ()
  else
    Except.error (PyError.attributeError "unsubscribe")

/-! ## Device scenario engine (`locustfile.py`, class `IoTDeviceUser`) -/

/-- The protocol client owned by one simulated device (`self.client`),
one of the three drivers. -/
inductive Client where
  | mqtt (st : MQTTDevice)
  | amqp (st : AMQPDevice)
  | http (st : HTTPClient)
deriving DecidableEq, Repr

/-- Driver-level `is_connected` (`self.client._connected`). -/
def Client.isConn : Client → Bool
  | Client.mqtt st => st.connected
  | Client.amqp st => st.connected
  | Client.http st => st.connected

/-- Set the driver-level connection flag (effect of a successful
`connect()` / of `disconnect()`). -/
def Client.setConn : Client → Bool → Client
  | Client.mqtt st, b => Client.mqtt { st with connected := b }
  | Client.amqp st, b => Client.amqp { st with connected := b }
  | Client.http st, b => Client.http { st with connected := b }

/-- `self.client.publish(topic, payload, qos=..., retain=...)` as the
scenario handlers invoke it, reduced to success or the raised error
message.  For the HTTP driver the topic is the request path and the
method is the default POST; qos/retain land in `**kwargs`. -/
def Client.publishCall (c : Client) (topic : String) (qos : Option Nat)
    (retainFlag : Bool) : Except String Unit :=
  match c with
  | Client.mqtt st =>
      (st.publish topic qos retainFlag none).map (fun _ => ())
  | Client.amqp st => st.publish topic
  | Client.http st =>
      match st.publish topic "POST" with
      | Except.ok _ => Except.ok ()
      | Except.error (PyError.connectionError m) => Except.error m
      | Except.error (PyError.valueError m) => Except.error m
      | Except.error (PyError.attributeError a) => Except.error a

/-- `self.client.subscribe(topic, qos=1)` as the command scenario
invokes it. -/
def Client.subscribeCall (c : Client) (topic : String) (qos : Option Nat) :
    Except String Unit :=
  match c with
  | Client.mqtt st => (st.subscribe topic qos).map (fun _ => ())
  | Client.amqp st => st.subscribe topic
  | Client.http st => Except.ok ()

/-- A fired Locust request event: its `name` and the optional exception
it carries. -/
structure Event where
  name : String
  failure : Option String
deriving DecidableEq, Repr

/-- Per-device state read by `IoTDeviceUser.run_test`: the user-level
connected flag (`self.connected`), whether `on_start` managed to build a
client (`self.client is not None`), the client itself, and the
configuration fields used by the scenario handlers. -/
structure DevState where
  userConnected : Bool
  hasClient : Bool
  client : Client
  device_id : String
  test_type : String
  topic_pattern : String
  qos : Nat
  retain : Bool
  lastPublish : Rat
  publishInterval : Rat
deriving DecidableEq, Repr

/-- Topic resolution used by the handlers:
`self.topic_pattern.replace("\x7bdeviceId\x7d", self.device_id)`. -/
def resolvedTopic (st : DevState) : String :=
  st.topic_pattern.replace "\x7bdeviceId\x7d" st.device_id

/-- Result of dispatching one scenario handler: updated device state,
the events it fired before returning or raising, and the exception it
raised, if any (to be caught by `run_test`). -/
structure DispatchResult where
  state : DevState
  events : List Event
  exn : Option String
deriving DecidableEq, Repr

/-- `_telemetry_test` (locustfile.py lines 229-245): publish one payload
at the configured qos/retain; fire a "publish" event; update
`last_publish`. -/
def telemetryStep (st : DevState) (now : Rat) : DispatchResult :=
  match st.client.publishCall (resolvedTopic st) (some st.qos) st.retain with
  | Except.error e => { state := st, events := [], exn := some e }
  | Except.ok _ =>
      { state := { st with lastPublish := now }
        events := [{ name := "publish", failure := none }]
        exn := none }

/-- The inner loop of `_burst_test`: `burst_count = 10` publishes, each
firing a "publish_burst" event; an exception aborts the remainder but
keeps the events already fired. -/
def burstLoop (st : DevState) : Nat → List Event × Option String
  | 0 => ([], none)
  | n + 1 =>
      match st.client.publishCall (resolvedTopic st) (some st.qos) false with
      | Except.error e => ([], some e)
      | Except.ok _ =>
          let rest := burstLoop st n
          ({ name := "publish_burst", failure := none } :: rest.1, rest.2)

/-- `_burst_test` (locustfile.py lines 247-265). -/
def burstStep (st : DevState) (now : Rat) : DispatchResult :=
  match burstLoop st 10 with
  | (evs, none) =>
      { state := { st with lastPublish := now }, events := evs, exn := none }
  | (evs, some e) => { state := st, events := evs, exn := some e }

/-- `_churn_test` (locustfile.py lines 267-286): disconnect, brief
random sleep, reconnect; `connectResult` is the broker's response to the
reconnect (`none` = success, `some e` = raised error). -/
def churnStep (st : DevState) (connectResult : Option String) :
    DispatchResult :=
  let st₁ := { st with client := st.client.setConn false }
  match connectResult with
  | some e => { state := st₁, events := [], exn := some e }
  | none =>
      { state := { st₁ with client := st₁.client.setConn true }
        events := [{ name := "reconnect", failure := none }]
        exn := none }

/-- `_retained_test` (locustfile.py lines 288-304): publish a status
payload with `qos=1, retain=True`. -/
def retainedStep (st : DevState) (now : Rat) : DispatchResult :=
  match st.client.publishCall ("devices/" ++ st.device_id ++ "/status") (some 1) true with
  | Except.error e => { state := st, events := [], exn := some e }
  | Except.ok _ =>
      { state := { st with lastPublish := now }
        events := [{ name := "publish_retained", failure := none }]
        exn := none }

/-- `_command_test` (locustfile.py lines 306-328): subscribe to the
command topic at qos 1, then publish a response at qos 1. -/
def commandStep (st : DevState) (now : Rat) : DispatchResult :=
  match st.client.subscribeCall ("devices/" ++ st.device_id ++ "/commands") (some 1) with
  | Except.error e => { state := st, events := [], exn := some e }
  | Except.ok _ =>
      match st.client.publishCall ("devices/" ++ st.device_id ++ "/responses") (some 1) false with
      | Except.error e => { state := st, events := [], exn := some e }
      | Except.ok _ =>
          { state := { st with lastPublish := now }
            events := [{ name := "command_response", failure := none }]
            exn := none }

/-- `_offline_test` (locustfile.py lines 330-353): publish at qos 1,
disconnect, random sleep, reconnect. -/
def offlineStep (st : DevState) (connectResult : Option String) :
    DispatchResult :=
  match st.client.publishCall (resolvedTopic st) (some 1) false with
  | Except.error e => { state := st, events := [], exn := some e }
  | Except.ok _ =>
      let st₁ := { st with client := st.client.setConn false }
      match connectResult with
      | some e => { state := st₁, events := [], exn := some e }
      | none =>
          { state := { st₁ with client := st₁.client.setConn true }
            events := [{ name := "offline_reconnect", failure := none }]
            exn := none }

/-- The scenario dispatch of `run_test` (locustfile.py lines 159-175):
select the handler by `self.test_type`; `lwt` and unknown types run the
telemetry handler. -/
def dispatchScenario (st : DevState) (now : Rat)
    (connectResult : Option String) : DispatchResult :=
  if st.test_type = "burst" then burstStep st now
  else if st.test_type = "churn" then churnStep st connectResult
  else if st.test_type = "retained" then retainedStep st now
  else if st.test_type = "command" then commandStep st now
  else if st.test_type = "offline" then offlineStep st connectResult
  else telemetryStep st now

/-- Result of one `run_test` scheduling tick. -/
structure TickResult where
  state : DevState
  events : List Event
  dispatched : Bool
  connectAttempts : Nat
  backoffSlept : Rat
deriving DecidableEq, Repr

/-- `IoTDeviceUser.run_test` (locustfile.py lines 122-184): when the
user-level flag says disconnected (and a client exists), attempt exactly
one reconnect — on failure sleep 1.0s, fire "reconnect_fail" and return;
on success fire "reconnect_success", *and return* (no dispatch this
tick).  Otherwise enforce the publish-rate gap and dispatch the
scenario; any exception from the handler is caught and fired as an event
named after the test type, and the tick returns normally. -/
def runTestTick (st : DevState) (now : Rat)
    (connectResult : Option String) : TickResult :=
  if st.userConnected = false ∨ st.hasClient = false then
    if st.hasClient = true ∧ st.userConnected = false then
      match connectResult with
      | none =>
          { state :=
              { st with
                userConnected := true
                client := st.client.setConn true }
            events := [{ name := "reconnect_success", failure := none }]
            dispatched := false, connectAttempts := 1, backoffSlept := 0 }
      | some e =>
          { state := st
            events := [{ name := "reconnect_fail", failure := some e }]
            dispatched := false, connectAttempts := 1, backoffSlept := 1 }
    else
      { state := st, events := [], dispatched := false,
        connectAttempts := 0, backoffSlept := 0 }
  else
    let gap := now - st.lastPublish
    let rateSlept := if gap < st.publishInterval then st.publishInterval - gap else 0
    let r := dispatchScenario st now connectResult
    match r.exn with
    | none =>
        { state := r.state, events := r.events, dispatched := true,
          connectAttempts := 0, backoffSlept := rateSlept }
    | some e =>
        { state := r.state
          events := r.events ++ [{ name := st.test_type, failure := some e }]
          dispatched := true, connectAttempts := 0, backoffSlept := rateSlept }

/-! ## Payload generation (`locustfile.py`, `_generate_payload`) -/

/-- Python `int(x)` on a float: truncation toward zero. -/
def pyInt (q : Rat) : Int :=
  if 0 ≤ q then ⌊q⌋ else ⌈q⌉

/-- Python float `a % b` for a positive modulus `b`. -/
def pyFloatMod (a b : Rat) : Rat :=
  a - b * (⌊a / b⌋ : Int)

/-- Round half to even to an integer, the rounding of Python `round`. -/
def roundHalfEven (q : Rat) : Int :=
  let f : Int := ⌊q⌋
  let r : Rat := q - (f : Rat)
  if r < 1 / 2 then f
  else if 1 / 2 < r then f + 1
  else if f % 2 = 0 then f else f + 1

/-- Python `round(x, 2)`. -/
def pyRound2 (q : Rat) : Rat :=
  (roundHalfEven (q * 100) : Rat) / 100

/-- The PRNG seed used for one `_generate_payload` call (locustfile.py
lines 189-197): `device_seed + int(elapsed)` with
`device_seed = hash(self.device_id) % 10000`.  The per-run string hash
is abstracted as the already-reduced `deviceSeed < 10000`. -/
def prngSeed (deviceSeed : Nat) (elapsed : Rat) : Int :=
  (deviceSeed : Int) + pyInt elapsed

/-- The three sensor values of one generated payload. -/
structure SensorValues where
  temperature : Rat
  humidity : Rat
  pressure : Rat
deriving DecidableEq, Repr

/-- `IoTDeviceUser._generate_payload` (locustfile.py lines 186-227),
sensor-value part.  `rng s k` is the `k`-th `random.uniform` draw after
`random.seed(s)`; the draws used are `uniform(-0.5, 0.5)` for
temperature, `uniform(-2, 2)` for humidity and `uniform(-0.5, 0.5)` for
pressure.  `elapsed` is the float `time.time() - self._start_time`. -/
def generatePayload (deviceSeed : Nat) (elapsed : Rat)
    (rng : Int → Nat → Rat) : SensorValues :=
  let seed := prngSeed deviceSeed elapsed
  let tempBaseline : Rat := 20 + ((deviceSeed % 20 : Nat) : Rat) - 10
  let tempTrend : Rat := 5 * (elapsed / 3600)
  let temperature := pyRound2 (tempBaseline + tempTrend + rng seed 0)
  let humidityBaseline : Rat := 50 + ((deviceSeed % 30 : Nat) : Rat) - 15
  let humidityCycle : Rat := 10 * (1 + pyFloatMod elapsed 300 / 300)
  let humidity :=
    pyRound2 (max 0 (min 100 (humidityBaseline + humidityCycle + rng seed 1)))
  let pressureBaseline : Rat := 1013 + ((deviceSeed % 20 : Nat) : Rat) - 10
  let pressure := pyRound2 (pressureBaseline + rng seed 2)
  { temperature := temperature, humidity := humidity, pressure := pressure }

/-- Number of padding characters (locustfile.py line 225):
`"x" * max(0, self.message_size - 200)`. -/
def padCount (messageSize : Int) : Nat :=
  (max 0 (messageSize - 200)).toNat

/-- The serialized telemetry payload, `json.dumps(data).encode()`
(locustfile.py lines 219-227), with the dict keys in insertion order and
the default `json.dumps` separators.  The rendered numeric fields are
passed as the strings Python would print for them. -/
def telemetryJson (deviceId : String) (timestampMs : Int)
    (tStr hStr pStr : String) (messageSize : Int) : String :=
  "\x7b\"deviceId\": \"" ++ deviceId ++
    "\", \"timestamp\": " ++ toString timestampMs ++
    ", \"temperature\": " ++ tStr ++
    ", \"humidity\": " ++ hStr ++
    ", \"pressure\": " ++ pStr ++
    ", \"padding\": \"" ++ String.mk (List.replicate (padCount messageSize) 'x') ++
    "\"\x7d"

/-- Constant pseudo-random draw used for concrete evaluations: every
`uniform` draw returns `1/250` (= 0.004, inside every draw's range). -/
def c6Rng : Int → Nat → Rat := fun _ _ => 1 / 250

/-- Concrete stderr text of 501 characters: an `'A'` followed by 500
`'B'`s.  Its first 500 characters differ from its last 500. -/
def c3Stderr : String := ⟨'A' :: List.replicate 500 'B'⟩

/-! ## Theorems -/

theorem jInv_init : JInv jInit := by
  refine ⟨fun _ => ⟨rfl, rfl⟩, fun h => by simp [jInit] at h,
    fun h => by simp [jInit] at h⟩

theorem jInv_step {s s' : JState} (hinv : JInv s) (hst : JStep s s') :
    JInv s' := by
  obtain ⟨h1, h2, h3⟩ := hinv
  cases hst with
  | start h =>
      exact ⟨fun hc => by simp at hc, fun _ => rfl,
        fun hc => by simp at hc⟩
  | procExit rc h =>
      refine ⟨fun hc => ?_, fun hc => h2 hc, fun hc => h3 hc⟩
      have hn := (h1 hc).2
      rw [h] at hn
      exact absurd hn (by simp)
  | observe rc hp he =>
      refine ⟨fun hc => by simp at hc, fun hc => by simp at hc,
        fun _ => ?_⟩
      by_cases hrc : rc = 0 <;> simp [hrc]
  | timeoutKill hp ha =>
      exact ⟨fun hc => by simp at hc, fun hc => by simp at hc,
        fun _ => Or.inr rfl⟩
  | stopJobCall rc hs ha =>
      refine ⟨fun hc => ?_, fun hc => h2 hc, fun hc => h3 hc⟩
      have hn := (h1 hc).2
      rw [ha] at hn
      exact absurd hn (by simp)

theorem jInv_reach {s : JState} (h : JReach s) : JInv s := by
  induction h with
  | refl => exact jInv_init
  | tail _ hstep ih => exact jInv_step ih hstep

theorem jmInv_step {s s' : List Job} (hinv : JMInv s)
    (hst : JMStep true s s') : JMInv s' := by
  obtain ⟨hp1, hp2⟩ := hinv
  cases hst with
  | create s j h hj hp =>
      have hz := hp rfl
      have e2 : running_count (s ++ [j]) = running_count s := by
        simp [running_count, List.countP_append, List.countP_cons, hj]
      have e1 : pending_count (s ++ [j]) = pending_count s + 1 := by
        simp [pending_count, List.countP_append, List.countP_cons, hj]
      simp only [MAX_CONCURRENT_JOBS] at h
      refine ⟨?_, ?_⟩ <;> simp only [JMInv, MAX_CONCURRENT_JOBS, e1, e2] <;> omega
  | reject s h => exact ⟨hp1, hp2⟩
  | startJob s₁ s₂ j hj =>
      constructor <;>
        simp_all [running_count, pending_count, MAX_CONCURRENT_JOBS,
          List.countP_append, List.countP_cons, hj] <;> omega
  | finishJob s₁ s₂ j st hj hst =>
      rcases hst with h | h <;> subst h <;> constructor <;>
        simp_all [running_count, pending_count, MAX_CONCURRENT_JOBS,
          List.countP_append, List.countP_cons, hj] <;> omega
  | stopRunning s₁ s₂ j hj =>
      constructor <;>
        simp_all [running_count, pending_count, MAX_CONCURRENT_JOBS,
          List.countP_append, List.countP_cons, hj] <;> omega

theorem jmInv_reach {s : List Job} (h : JMReach true s) : JMInv s := by
  induction h with
  | refl => exact ⟨by simp [pending_count], by simp [running_count, pending_count]⟩
  | tail _ hstep ih => exact jmInv_step ih hstep

/-- C4: for every job table and current time, `cleanup_expired` keeps
exactly the jobs that are not expired (`ended_at` unset, or at most 3600
seconds old), in order; the returned count plus the kept jobs account
for the whole table; and a second call with the same `now` removes zero
jobs and leaves the table unchanged. -/
theorem C4_cleanup_expired_exact (jobs : List Job) (now : Int) :
    (∀ j, j ∈ (cleanup_expired jobs now).1 ↔
      j ∈ jobs ∧ jobExpired now j = false) ∧
    List.Sublist (cleanup_expired jobs now).1 jobs ∧
    (cleanup_expired jobs now).2 + (cleanup_expired jobs now).1.length =
      jobs.length ∧
    cleanup_expired (cleanup_expired jobs now).1 now =
      ((cleanup_expired jobs now).1, 0) := by
  refine ⟨?_, ?_, ?_, ?_⟩
  · intro j
    simp [cleanup_expired, List.mem_filter]
  · show List.Sublist (jobs.filter (fun j => !jobExpired now j)) jobs
    exact List.filter_sublist jobs
  · exact (List.length_eq_length_filter_add (fun j => jobExpired now j)).symm
  · simp [cleanup_expired, List.filter_filter, Bool.and_self,
      Bool.not_and_self, Bool.and_not_self]

/-- C9 (amended): `HTTPClient.subscribe` is a no-op that never raises,
for every client state and path; but the class defines no `unsubscribe`
method at all, so calling `unsubscribe` raises `AttributeError` instead
of being a no-op. -/
theorem C9_http_subscription (st : HTTPClient) (path : String) :
    HTTPClient.subscribe st path = Except.ok () ∧
    HTTPClient.unsubscribeCall st path =
      Except.error (PyError.attributeError "unsubscribe") := by
  refine ⟨rfl, ?_⟩
  simp [HTTPClient.unsubscribeCall, HTTPClient.classAttrs]

/-- C9 counterexample: on a connected client, `unsubscribe` is not a
non-raising no-op — the call is an `AttributeError`. -/
theorem C9_counterexample :
    HTTPClient.unsubscribeCall
        { base_url := "http://broker", device_id := "d", connected := true }
        "devices/d/telemetry" =
      Except.error (PyError.attributeError "unsubscribe") ∧
    HTTPClient.unsubscribeCall
        { base_url := "http://broker", device_id := "d", connected := true }
        "devices/d/telemetry" ≠ Except.ok () := by
  refine ⟨?_, ?_⟩ <;>
    simp [HTTPClient.unsubscribeCall, HTTPClient.classAttrs]

/-- C10: a connected `MQTTDevice.publish` sends at the explicit qos
argument when one is given (falling back to the instance default only
when it is `None`), while the bounded acknowledgment wait happens iff
the explicit qos is positive or the instance default is positive; in
particular an explicit `qos=0` with a positive default qos is sent at
QoS 0 yet still waits for publish confirmation. -/
theorem C10_publish_qos_ack (st : MQTTDevice) (topic : String)
    (qos : Option Nat) (retainFlag : Bool) (message_expiry : Option Nat)
    (hc : st.connected = true) :
    ∃ eff, st.publish topic qos retainFlag message_expiry = Except.ok eff ∧
      eff.sentQos = qos.getD st.qos ∧
      (eff.waitedForAck = true ↔
        (∃ q, qos = some q ∧ 0 < q) ∨ 0 < st.qos) ∧
      (qos = some 0 → 0 < st.qos →
        eff.sentQos = 0 ∧ eff.waitedForAck = true) := by
  have heff : st.publish topic qos retainFlag message_expiry = Except.ok
      { topic := topic
        sentQos := match qos with | some q => q | none => st.qos
        retainFlag := retainFlag
        expiry :=
          if pyTruthyOptNat (pyOrOpt message_expiry st.message_expiry_seconds)
          then pyOrOpt message_expiry st.message_expiry_seconds else none
        waitedForAck := decide (0 < pyOrQos qos st.qos) } := by
    simp [MQTTDevice.publish, hc]
  refine ⟨_, heff, ?_, ?_, ?_⟩
  · cases qos <;> simp [Option.getD]
  · cases qos with
    | none => simp [pyOrQos]
    | some q =>
        rcases Nat.eq_zero_or_pos q with hq | hq
        · subst hq
          simp [pyOrQos]
        · simp only [pyOrQos, Nat.pos_iff_ne_zero.mp hq, if_false,
            decide_eq_true_eq]
          constructor
          · intro _
            exact Or.inl ⟨q, rfl, hq⟩
          · intro _
            exact hq
  · rintro rfl hpos
    simp [pyOrQos, hpos]

/-- C10 witness: explicit qos 0 on a client with default qos 1. -/
theorem C10_publish_qos_ack_witness :
    ∃ eff,
      MQTTDevice.publish
          { device_id := "d", qos := 1, message_expiry_seconds := none,
            connected := true }
          "t" (some 0) false none = Except.ok eff ∧
      eff.sentQos = (some 0).getD 1 ∧
      (eff.waitedForAck = true ↔
        (∃ q, (some 0 : Option Nat) = some q ∧ 0 < q) ∨ (0 : Nat) < 1) ∧
      ((some 0 : Option Nat) = some 0 → (0:Nat) < 1 →
        eff.sentQos = 0 ∧ eff.waitedForAck = true) :=
  C10_publish_qos_ack
    { device_id := "d", qos := 1, message_expiry_seconds := none,
      connected := true } "t" (some 0) false none rfl

/-- C3 (amended): exit code 0 gives COMPLETED; a non-zero exit gives
FAILED with the error detail built from the FIRST 500 characters of the
captured stderr; a timeout force-kills and reaps the process and gives
FAILED with the timeout error; and `ended_at` is set on every outcome
path. -/
theorem C3_run_outcome (rc : Int) (stderrText : String) (hrc : rc ≠ 0) :
    runJobOutcome (ProcOutcome.exited 0 stderrText) =
      { status := JobStatus.completed, error := none,
        killedAndReaped := false, endedAtSet := true } ∧
    runJobOutcome (ProcOutcome.exited rc stderrText) =
      { status := JobStatus.failed,
        error := some ("Exit code " ++ toString rc ++ ": " ++
          pySliceTo stderrText 500),
        killedAndReaped := false, endedAtSet := true } ∧
    runJobOutcome ProcOutcome.timedOut =
      { status := JobStatus.failed, error := some "Job timed out",
        killedAndReaped := true, endedAtSet := true } ∧
    (∀ o : ProcOutcome, (runJobOutcome o).endedAtSet = true) := by
  refine ⟨by simp [runJobOutcome], by simp [runJobOutcome, hrc], rfl, ?_⟩
  intro o
  cases o with
  | exited rc2 s2 => by_cases h : rc2 = 0 <;> simp [runJobOutcome, h]
  | timedOut => rfl

/-- C3 witness: a run exiting with code 1 and stderr "boom". -/
theorem C3_run_outcome_witness :
    runJobOutcome (ProcOutcome.exited 0 "boom") =
      { status := JobStatus.completed, error := none,
        killedAndReaped := false, endedAtSet := true } ∧
    runJobOutcome (ProcOutcome.exited 1 "boom") =
      { status := JobStatus.failed,
        error := some ("Exit code " ++ toString (1:Int) ++ ": " ++
          pySliceTo "boom" 500),
        killedAndReaped := false, endedAtSet := true } ∧
    runJobOutcome ProcOutcome.timedOut =
      { status := JobStatus.failed, error := some "Job timed out",
        killedAndReaped := true, endedAtSet := true } ∧
    (∀ o : ProcOutcome, (runJobOutcome o).endedAtSet = true) :=
  C3_run_outcome 1 "boom" (by decide)

set_option maxRecDepth 400000 in
/-- C3 counterexample: for a 501-character stderr ('A' then 500 'B's),
the recorded error detail does not contain the last 500 characters of
the stream — the code captures `stderr[:500]`, the first 500. -/
theorem C3_counterexample :
    (runJobOutcome (ProcOutcome.exited 1 c3Stderr)).status =
      JobStatus.failed ∧
    ¬ List.IsInfix (pySliceLast c3Stderr 500).data
        ((runJobOutcome (ProcOutcome.exited 1 c3Stderr)).error.getD "").data := by
  constructor
  · rfl
  · intro hinf
    have e1 : (pySliceLast c3Stderr 500).data = List.replicate 500 'B' := by
      decide
    have e2 : ((runJobOutcome (ProcOutcome.exited 1 c3Stderr)).error.getD "").data =
        "Exit code 1: ".data ++ 'A' :: List.replicate 499 'B' := by
      decide
    rw [e1, e2] at hinf
    have hcount := hinf.sublist.count_le 'B'
    have hcA : List.count 'B' ('A' :: List.replicate 499 'B') = 499 := by
      rw [List.count_cons, List.count_replicate_self]
      decide
    have hcS : List.count 'B' "Exit code 1: ".data = 0 := by decide
    rw [List.count_replicate_self, List.count_append, hcA, hcS] at hcount
    omega

/-- C7 (amended): the serialized payload length is the length of its
non-padding rendering plus `max(0, messageSize - 200)` padding
characters; the padding count is never negative, is zero at or below the
200-byte floor, and equals `messageSize - 200` above it — so the total
tracks the configured size only up to the fixed 200-byte allowance for
the non-padding fields. -/
theorem C7_payload_length (deviceId : String) (timestampMs : Int)
    (tStr hStr pStr : String) (messageSize : Int) :
    (telemetryJson deviceId timestampMs tStr hStr pStr messageSize).length =
      91 + deviceId.length + (toString timestampMs).length + tStr.length +
        hStr.length + pStr.length + padCount messageSize ∧
    (0 : Int) ≤ (padCount messageSize : Int) ∧
    (messageSize ≤ 200 → padCount messageSize = 0) ∧
    (200 ≤ messageSize → (padCount messageSize : Int) = messageSize - 200) := by
  refine ⟨?_, Int.natCast_nonneg _, ?_, ?_⟩
  · simp only [telemetryJson, String.length_append]
    have hx : (String.mk (List.replicate (padCount messageSize) 'x')).length =
        padCount messageSize := by
      simp [String.length]
    rw [hx]
    have h1 : ("\x7b\"deviceId\": \"" : String).length = 14 := by decide
    have h2 : ("\", \"timestamp\": " : String).length = 16 := by decide
    have h3 : (", \"temperature\": " : String).length = 17 := by decide
    have h4 : (", \"humidity\": " : String).length = 14 := by decide
    have h5 : (", \"pressure\": " : String).length = 14 := by decide
    have h6 : (", \"padding\": \"" : String).length = 14 := by decide
    have h7 : ("\"\x7d" : String).length = 2 := by decide
    rw [h1, h2, h3, h4, h5, h6, h7]
    omega
  · intro h
    simp only [padCount]
    omega
  · intro h
    simp only [padCount]
    omega

/-- C7 witness: a 17-character device id, millisecond timestamp and the
default 256-byte message size. -/
theorem C7_payload_length_witness :
    (telemetryJson "device-00001-abcd" 1700000000000 "20.0" "50.0"
        "1013.0" 256).length =
      91 + ("device-00001-abcd" : String).length +
        (toString (1700000000000 : Int)).length + ("20.0" : String).length +
        ("50.0" : String).length + ("1013.0" : String).length + padCount 256 ∧
    (0 : Int) ≤ (padCount 256 : Int) ∧
    ((256 : Int) ≤ 200 → padCount 256 = 0) ∧
    ((200 : Int) ≤ 256 → (padCount 256 : Int) = 256 - 200) :=
  C7_payload_length "device-00001-abcd" 1700000000000 "20.0" "50.0"
    "1013.0" 256

set_option maxRecDepth 10000 in
/-- C7 counterexample: with a realistic rendering of every field and the
default 256-byte configured size, the serialized payload is 191 bytes,
not 256 — the total length does not equal the configured message size. -/
theorem C7_counterexample :
    (200 : Int) ≤ 256 ∧
    (telemetryJson "device-00001-abcd" 1700000000000 "20.0" "50.0"
        "1013.0" 256).length = 191 ∧
    (telemetryJson "device-00001-abcd" 1700000000000 "20.0" "50.0"
        "1013.0" 256).length ≠ 256 := by
  refine ⟨by decide, by decide, by decide⟩

theorem roundHalfEven_nonneg {q : Rat} (h : 0 ≤ q) :
    0 ≤ roundHalfEven q := by
  have hf : (0 : Int) ≤ ⌊q⌋ := Int.floor_nonneg.mpr h
  simp only [roundHalfEven]
  split_ifs <;> omega

theorem roundHalfEven_le {q : Rat} {n : Int} (h : q ≤ (n : Rat)) :
    roundHalfEven q ≤ n := by
  have hf : ⌊q⌋ ≤ n := by
    have h2 := Int.floor_le_floor h
    rwa [Int.floor_intCast] at h2
  have key : 1 / 2 ≤ q - (⌊q⌋ : Rat) → ⌊q⌋ + 1 ≤ n := by
    intro hr
    by_contra hc
    have heq : ⌊q⌋ = n := by omega
    rw [heq] at hr
    linarith
  simp only [roundHalfEven]
  split_ifs with h1 h2 h3
  · exact hf
  · exact key (by linarith)
  · exact hf
  · exact key (by linarith)

theorem pyRound2_clamp_mem (x : Rat) :
    0 ≤ pyRound2 (max 0 (min 100 x)) ∧ pyRound2 (max 0 (min 100 x)) ≤ 100 := by
  set y := max 0 (min 100 x) with hy
  have h0 : 0 ≤ y := le_max_left _ _
  have h100 : y ≤ 100 := max_le (by norm_num) (min_le_left _ _)
  have hlo : 0 ≤ roundHalfEven (y * 100) :=
    roundHalfEven_nonneg (by positivity)
  have hhi : roundHalfEven (y * 100) ≤ (10000 : Int) := by
    refine roundHalfEven_le ?_
    push_cast
    linarith
  have hlo' : (0 : Rat) ≤ (roundHalfEven (y * 100) : Rat) := by
    exact_mod_cast hlo
  have hhi' : (roundHalfEven (y * 100) : Rat) ≤ 10000 := by
    exact_mod_cast hhi
  simp only [pyRound2]
  constructor
  · positivity
  · rw [div_le_iff (by norm_num)]
    linarith

/-- C6 (amended): the generated sensor values are a deterministic
function of the device seed and the exact elapsed time; the
pseudo-random generator is seeded deterministically per (device seed,
whole elapsed second); and humidity always lies within [0, 100].
Determinism per whole elapsed second alone does not hold (see the
counterexample): the temperature trend and humidity cycle also read the
fractional part of the elapsed time. -/
theorem C6_payload_determinism :
    (∀ (ds : Nat) (e1 e2 : Rat) (rng : Int → Nat → Rat), e1 = e2 →
      generatePayload ds e1 rng = generatePayload ds e2 rng) ∧
    (∀ (ds : Nat) (e1 e2 : Rat), pyInt e1 = pyInt e2 →
      prngSeed ds e1 = prngSeed ds e2) ∧
    (∀ (ds : Nat) (e : Rat) (rng : Int → Nat → Rat),
      0 ≤ (generatePayload ds e rng).humidity ∧
        (generatePayload ds e rng).humidity ≤ 100) := by
  refine ⟨?_, ?_, ?_⟩
  · intro ds e1 e2 rng h
    rw [h]
  · intro ds e1 e2 h
    simp only [prngSeed, h]
  · intro ds e rng
    simp only [generatePayload]
    exact pyRound2_clamp_mem _

/-- C6 witness: device seed 7, elapsed 3/2 seconds. -/
theorem C6_payload_determinism_witness :
    generatePayload 7 (3 / 2) c6Rng = generatePayload 7 (3 / 2) c6Rng ∧
    prngSeed 7 (3 / 2) = prngSeed 7 (3 / 2) ∧
    (0 ≤ (generatePayload 7 (3 / 2) c6Rng).humidity ∧
      (generatePayload 7 (3 / 2) c6Rng).humidity ≤ 100) :=
  ⟨C6_payload_determinism.1 7 (3 / 2) (3 / 2) c6Rng rfl,
    C6_payload_determinism.2.1 7 (3 / 2) (3 / 2) rfl,
    C6_payload_determinism.2.2 7 (3 / 2) c6Rng⟩

/-- C6 counterexample: elapsed times 9/10 and 0 lie in the same whole
elapsed second (`int(elapsed) = 0`) and use the same PRNG draws, yet the
generated values differ — the temperature is 10.01 at elapsed 9/10 and
10.00 at elapsed 0 (device seed 0, every uniform draw = 0.004). -/
theorem C6_counterexample :
    pyInt (9 / 10 : Rat) = pyInt (0 : Rat) ∧
    prngSeed 0 (9 / 10) = prngSeed 0 0 ∧
    generatePayload 0 (9 / 10) c6Rng ≠ generatePayload 0 0 c6Rng := by
  have hp : pyInt (9 / 10 : Rat) = pyInt (0 : Rat) := by
    simp only [pyInt]
    norm_num
  refine ⟨hp, by simp only [prngSeed, hp], ?_⟩
  intro h
  have ht := congrArg SensorValues.temperature h
  rw [show (generatePayload 0 (9 / 10) c6Rng).temperature = 1001 / 100 by
        simp only [generatePayload, c6Rng, prngSeed, pyInt, pyRound2,
          roundHalfEven, pyFloatMod]
        norm_num] at ht
  rw [show (generatePayload 0 0 c6Rng).temperature = 10 by
        simp only [generatePayload, c6Rng, prngSeed, pyInt, pyRound2,
          roundHalfEven, pyFloatMod]
        norm_num] at ht
  norm_num at ht

theorem publishCall_not_connected (c : Client) (h : c.isConn = false)
    (topic : String) (qos : Option Nat) (retainFlag : Bool) :
    c.publishCall topic qos retainFlag = Except.error "Not connected" := by
  cases c with
  | mqtt st =>
      simp only [Client.isConn] at h
      simp [Client.publishCall, MQTTDevice.publish, h, Except.map]
  | amqp st =>
      simp only [Client.isConn] at h
      simp [Client.publishCall, AMQPDevice.publish, h]
  | http st =>
      simp only [Client.isConn] at h
      simp [Client.publishCall, HTTPClient.publish, h]

theorem Client.isConn_setConn (c : Client) (b : Bool) :
    (c.setConn b).isConn = b := by
  cases c <;> rfl

theorem dispatch_not_connected (st : DevState) (now : Rat)
    (cr : Option String) (h : st.client.isConn = false)
    (htt : st.test_type = "telemetry" ∨ st.test_type = "burst" ∨
      st.test_type = "retained" ∨ st.test_type = "command" ∨
      st.test_type = "offline" ∨ st.test_type = "lwt") :
    dispatchScenario st now cr =
      { state := st, events := [], exn := some "Not connected" } := by
  have hp := publishCall_not_connected st.client h
  rcases htt with htt | htt | htt | htt | htt | htt
  · simp [dispatchScenario, htt, telemetryStep, hp]
  · simp [dispatchScenario, htt, burstStep, burstLoop, hp]
  · simp [dispatchScenario, htt, retainedStep, hp]
  · -- the command scenario: its first driver call is `subscribe`
    cases hc : st.client with
    | mqtt mst =>
        rw [hc] at h
        simp only [Client.isConn] at h
        simp [dispatchScenario, htt, commandStep, Client.subscribeCall,
          MQTTDevice.subscribe, h, hc, Except.map]
    | amqp ast =>
        rw [hc] at h
        simp only [Client.isConn] at h
        simp [dispatchScenario, htt, commandStep, Client.subscribeCall,
          AMQPDevice.subscribe, h, hc]
    | http hcst =>
        have hp2 := hp ("devices/" ++ st.device_id ++ "/responses")
          (some 1) false
        rw [hc] at hp2
        simp [dispatchScenario, htt, commandStep, Client.subscribeCall,
          hc, hp2]
  · simp [dispatchScenario, htt, offlineStep, hp]
  · simp [dispatchScenario, htt, telemetryStep, hp]

theorem tick_dispatches (st : DevState) (now : Rat) (cr : Option String)
    (h1 : st.userConnected = true) (h2 : st.hasClient = true) :
    (runTestTick st now cr).dispatched = true := by
  simp only [runTestTick, h1, h2]
  cases hx : (dispatchScenario st now cr).exn <;> simp [hx]

/-- C5: a publish on any of the three drivers while its `is_connected`
is false raises `ConnectionError("Not connected")` without performing a
send and without retrying; and a scenario tick whose driver is
disconnected (while the user-level flag still says connected) catches
the exception, fires a single failure event named after the test type,
leaves the device state unchanged, and returns normally so the device
task continues. -/
theorem C5_not_connected (mst : MQTTDevice) (ast : AMQPDevice)
    (hst : HTTPClient) (topic : String) (qos : Option Nat)
    (retainFlag : Bool) (message_expiry : Option Nat) (method : String)
    (st : DevState) (now : Rat) (cr : Option String)
    (hm : mst.connected = false) (ha : ast.connected = false)
    (hh : hst.connected = false)
    (hu : st.userConnected = true) (hcl : st.hasClient = true)
    (hdc : st.client.isConn = false)
    (htt : st.test_type = "telemetry" ∨ st.test_type = "burst" ∨
      st.test_type = "retained" ∨ st.test_type = "command" ∨
      st.test_type = "offline" ∨ st.test_type = "lwt") :
    mst.publish topic qos retainFlag message_expiry =
      Except.error "Not connected" ∧
    ast.publish topic = Except.error "Not connected" ∧
    hst.publish topic method =
      Except.error (PyError.connectionError "Not connected") ∧
    runTestTick st now cr =
      { state := st
        events := [{ name := st.test_type, failure := some "Not connected" }]
        dispatched := true, connectAttempts := 0
        backoffSlept :=
          if now - st.lastPublish < st.publishInterval
          then st.publishInterval - (now - st.lastPublish) else 0 } := by
  refine ⟨by simp [MQTTDevice.publish, hm], by simp [AMQPDevice.publish, ha],
    by simp [HTTPClient.publish, hh], ?_⟩
  have hd := dispatch_not_connected st now cr hdc htt
  simp [runTestTick, hu, hcl, hd]

/-- C5 witness: a telemetry device whose MQTT client has dropped its
connection while the user-level flag still says connected. -/
theorem C5_not_connected_witness :
    MQTTDevice.publish
        { device_id := "d", qos := 1, message_expiry_seconds := none,
          connected := false } "t" (some 1) false none =
      Except.error "Not connected" ∧
    AMQPDevice.publish { device_id := "d", connected := false } "t" =
      Except.error "Not connected" ∧
    HTTPClient.publish
        { base_url := "http://b", device_id := "d", connected := false }
        "t" "POST" =
      Except.error (PyError.connectionError "Not connected") ∧
    runTestTick
        { userConnected := true, hasClient := true
          client := Client.mqtt
            { device_id := "d", qos := 1, message_expiry_seconds := none,
              connected := false }
          device_id := "d", test_type := "telemetry"
          topic_pattern := "t", qos := 1, retain := false
          lastPublish := 0, publishInterval := 1 } 5 none =
      { state :=
          { userConnected := true, hasClient := true
            client := Client.mqtt
              { device_id := "d", qos := 1, message_expiry_seconds := none,
                connected := false }
            device_id := "d", test_type := "telemetry"
            topic_pattern := "t", qos := 1, retain := false
            lastPublish := 0, publishInterval := 1 }
        events := [{ name := "telemetry", failure := some "Not connected" }]
        dispatched := true, connectAttempts := 0
        backoffSlept := if (5 : Rat) - 0 < 1 then 1 - ((5 : Rat) - 0) else 0 } := by
  have h := C5_not_connected
    { device_id := "d", qos := 1, message_expiry_seconds := none,
      connected := false }
    { device_id := "d", connected := false }
    { base_url := "http://b", device_id := "d", connected := false }
    "t" (some 1) false none "POST"
    { userConnected := true, hasClient := true
      client := Client.mqtt
        { device_id := "d", qos := 1, message_expiry_seconds := none,
          connected := false }
      device_id := "d", test_type := "telemetry"
      topic_pattern := "t", qos := 1, retain := false
      lastPublish := 0, publishInterval := 1 } 5 none
    rfl rfl rfl rfl rfl rfl (Or.inl rfl)
  exact h

/-- C8 (amended): on a tick with the user-level flag disconnected and a
client present, exactly one reconnect is attempted.  On failure the task
sleeps 1 second, fires a single reconnect-failure event carrying the
error, and yields without dispatching.  On success it fires a single
reconnect-success event, marks the device connected — but it also yields
without dispatching on that same tick; the rate-limited scenario
dispatch only happens from the next tick on. -/
theorem C8_reconnect (st : DevState) (now now2 : Rat)
    (cr2 : Option String) (e : String)
    (hcl : st.hasClient = true) (hdc : st.userConnected = false) :
    runTestTick st now (some e) =
      { state := st
        events := [{ name := "reconnect_fail", failure := some e }]
        dispatched := false, connectAttempts := 1, backoffSlept := 1 } ∧
    (runTestTick st now none).connectAttempts = 1 ∧
    (runTestTick st now none).events =
      [{ name := "reconnect_success", failure := none }] ∧
    (runTestTick st now none).dispatched = false ∧
    (runTestTick st now none).state.userConnected = true ∧
    (runTestTick st now none).state.client.isConn = true ∧
    (runTestTick (runTestTick st now none).state now2 cr2).dispatched =
      true := by
  have hfail : runTestTick st now (some e) =
      { state := st
        events := [{ name := "reconnect_fail", failure := some e }]
        dispatched := false, connectAttempts := 1, backoffSlept := 1 } := by
    simp [runTestTick, hcl, hdc]
  have hsucc : runTestTick st now none =
      { state :=
          { st with
            userConnected := true
            client := st.client.setConn true }
        events := [{ name := "reconnect_success", failure := none }]
        dispatched := false, connectAttempts := 1, backoffSlept := 0 } := by
    simp [runTestTick, hcl, hdc]
  refine ⟨hfail, by rw [hsucc], by rw [hsucc], by rw [hsucc],
    by rw [hsucc], by rw [hsucc]; exact Client.isConn_setConn _ _, ?_⟩
  rw [hsucc]
  exact tick_dispatches _ now2 cr2 rfl hcl

/-- C8 counterexample input: a telemetry device whose client exists but
whose user-level flag is disconnected. -/
def c8Dev : DevState :=
  { userConnected := false, hasClient := true
    client := Client.mqtt
      { device_id := "d", qos := 1, message_expiry_seconds := none,
        connected := false }
    device_id := "d", test_type := "telemetry"
    topic_pattern := "t", qos := 1, retain := false
    lastPublish := 0, publishInterval := 1 }

/-- C8 counterexample: after a successful reconnect the tick records the
reconnect-success event but does NOT proceed to the scenario dispatch
within that same tick — `run_test` returns from the reconnect branch. -/
theorem C8_counterexample :
    (runTestTick c8Dev 0 none).events =
      [{ name := "reconnect_success", failure := none }] ∧
    (runTestTick c8Dev 0 none).connectAttempts = 1 ∧
    (runTestTick c8Dev 0 none).dispatched = false := by
  refine ⟨?_, ?_, ?_⟩ <;> simp [runTestTick, c8Dev]

/-- C8 witness: the concrete device `c8Dev`, with a failing and a
succeeding reconnect. -/
theorem C8_reconnect_witness :
    runTestTick c8Dev 0 (some "boom") =
      { state := c8Dev
        events := [{ name := "reconnect_fail", failure := some "boom" }]
        dispatched := false, connectAttempts := 1, backoffSlept := 1 } ∧
    (runTestTick c8Dev 0 none).connectAttempts = 1 ∧
    (runTestTick c8Dev 0 none).events =
      [{ name := "reconnect_success", failure := none }] ∧
    (runTestTick c8Dev 0 none).dispatched = false ∧
    (runTestTick c8Dev 0 none).state.userConnected = true ∧
    (runTestTick c8Dev 0 none).state.client.isConn = true ∧
    (runTestTick (runTestTick c8Dev 0 none).state 1 none).dispatched =
      true :=
  C8_reconnect c8Dev 0 1 none "boom" rfl rfl

/-- C1 (amended): `create_job` either raises the capacity error —
exactly when the RUNNING count has already reached the ceiling of 5, in
which case the job table is unchanged and no record is added — or
returns a fresh PENDING job appended to the table.  The number of
RUNNING jobs stays at most 5 as long as every admitted job starts
(PENDING→RUNNING) before the next admission; the ceiling check counts
only RUNNING jobs, so concurrent admissions of several still-PENDING
jobs can push the RUNNING count above 5 (see the counterexample). -/
theorem C1_create_capacity :
    (∀ (jobs : List Job) (fid : String),
      MAX_CONCURRENT_JOBS ≤ running_count jobs →
      create_job jobs fid =
        (Except.error "Maximum concurrent jobs (5) reached", jobs)) ∧
    (∀ (jobs : List Job) (fid : String),
      running_count jobs < MAX_CONCURRENT_JOBS →
      create_job jobs fid =
        (Except.ok { job_id := fid, status := JobStatus.pending },
          jobs ++ [{ job_id := fid, status := JobStatus.pending }])) ∧
    (∀ s, JMReach true s → running_count s ≤ MAX_CONCURRENT_JOBS) := by
  refine ⟨?_, ?_, ?_⟩
  · intro jobs fid h
    simp [create_job, h]
  · intro jobs fid h
    simp [create_job, Nat.not_le.mpr h]
  · intro s hr
    obtain ⟨_, h2⟩ := jmInv_reach hr
    omega

/-- C1 witness: a table of five RUNNING jobs rejects an admission; the
empty table admits one; the empty table is reachable and within the
ceiling. -/
theorem C1_create_capacity_witness :
    create_job (List.replicate 5 jobR) "f" =
      (Except.error "Maximum concurrent jobs (5) reached",
        List.replicate 5 jobR) ∧
    create_job [] "f" =
      (Except.ok { job_id := "f", status := JobStatus.pending },
        [] ++ [{ job_id := "f", status := JobStatus.pending }]) ∧
    running_count [] ≤ MAX_CONCURRENT_JOBS :=
  ⟨C1_create_capacity.1 (List.replicate 5 jobR) "f" (by decide),
    C1_create_capacity.2.1 [] "f" (by decide),
    C1_create_capacity.2.2 [] Relation.ReflTransGen.refl⟩

/-- Job table holding six RUNNING jobs. -/
def sixRunning : List Job := List.replicate 6 jobR

/-- C1 counterexample: six `create_job` admissions can all pass the
capacity check before any of the scheduled `_run_job` tasks runs (the
check counts only RUNNING jobs, and `asyncio.create_task` only schedules
the task); once the six tasks start, six jobs are RUNNING concurrently —
the ceiling of 5 is exceeded. -/
theorem C1_counterexample :
    JMReach false sixRunning ∧ running_count sixRunning = 6 ∧
    ¬ (∀ s, JMReach false s → running_count s ≤ MAX_CONCURRENT_JOBS) := by
  have hc : ∀ (s : List Job), running_count s < MAX_CONCURRENT_JOBS →
      JMStep false s (s ++ [jobP]) :=
    fun s h => JMStep.create s jobP h rfl (fun hb => by simp at hb)
  have hs : ∀ (s₁ s₂ : List Job), JMStep false (s₁ ++ jobP :: s₂)
      (s₁ ++ jobR :: s₂) :=
    fun s₁ s₂ => JMStep.startJob s₁ s₂ jobP rfl
  have r1 : JMReach false [jobP] :=
    Relation.ReflTransGen.single (hc [] (by decide))
  have r2 : JMReach false [jobP, jobP] := r1.tail (hc [jobP] (by decide))
  have r3 : JMReach false [jobP, jobP, jobP] :=
    r2.tail (hc [jobP, jobP] (by decide))
  have r4 : JMReach false [jobP, jobP, jobP, jobP] :=
    r3.tail (hc [jobP, jobP, jobP] (by decide))
  have r5 : JMReach false [jobP, jobP, jobP, jobP, jobP] :=
    r4.tail (hc [jobP, jobP, jobP, jobP] (by decide))
  have r6 : JMReach false [jobP, jobP, jobP, jobP, jobP, jobP] :=
    r5.tail (hc [jobP, jobP, jobP, jobP, jobP] (by decide))
  have t1 : JMReach false [jobR, jobP, jobP, jobP, jobP, jobP] :=
    r6.tail (hs [] [jobP, jobP, jobP, jobP, jobP])
  have t2 : JMReach false [jobR, jobR, jobP, jobP, jobP, jobP] :=
    t1.tail (hs [jobR] [jobP, jobP, jobP, jobP])
  have t3 : JMReach false [jobR, jobR, jobR, jobP, jobP, jobP] :=
    t2.tail (hs [jobR, jobR] [jobP, jobP, jobP])
  have t4 : JMReach false [jobR, jobR, jobR, jobR, jobP, jobP] :=
    t3.tail (hs [jobR, jobR, jobR] [jobP, jobP])
  have t5 : JMReach false [jobR, jobR, jobR, jobR, jobR, jobP] :=
    t4.tail (hs [jobR, jobR, jobR, jobR] [jobP])
  have t6 : JMReach false [jobR, jobR, jobR, jobR, jobR, jobR] :=
    t5.tail (hs [jobR, jobR, jobR, jobR, jobR] [])
  have hreach : JMReach false sixRunning := t6
  refine ⟨hreach, by decide, ?_⟩
  intro hall
  have hle := hall sixRunning hreach
  rw [show running_count sixRunning = 6 from by decide] at hle
  simp [MAX_CONCURRENT_JOBS] at hle

/-- C2: along every reachable interleaving of the supervision task, the
process and `stop_job`, a job's status moves only along
PENDING → RUNNING → {COMPLETED, FAILED, STOPPED}, and once in a terminal
state no later step changes it.  `stop_job` contributes no status
change: `job.process` is an `asyncio.subprocess.Process`, whose `wait()`
takes no timeout, so `job.process.wait(timeout=10)` at job_manager.py
line 206 raises an uncaught `TypeError` and the STOPPED assignment at
line 210 is dead code — the terminal statuses actually reached are
COMPLETED and FAILED, a subset of the claimed diagram. -/
theorem C2_status_transitions (s s' : JState) (hr : JReach s)
    (hst : JStep s s') :
    (s'.status = s.status ∨
      (s.status = JobStatus.pending ∧ s'.status = JobStatus.running) ∨
      (s.status = JobStatus.running ∧ terminal s'.status)) ∧
    (terminal s.status → s'.status = s.status) := by
  obtain ⟨h1, h2, h3⟩ := jInv_reach hr
  cases hst with
  | start h =>
      have hp := (h1 h).1
      refine ⟨Or.inr (Or.inl ⟨hp, rfl⟩), fun ht => ?_⟩
      rcases ht with ht | ht | ht <;> rw [hp] at ht <;> simp at ht
  | procExit rc h =>
      exact ⟨Or.inl rfl, fun _ => rfl⟩
  | observe rc hp he =>
      have hrun := h2 hp
      refine ⟨Or.inr (Or.inr ⟨hrun, ?_⟩), fun ht => ?_⟩
      · by_cases hrc : rc = 0 <;> simp [terminal, hrc]
      · rcases ht with ht | ht | ht <;> rw [hrun] at ht <;> simp at ht
  | timeoutKill hp ha =>
      have hrun := h2 hp
      refine ⟨Or.inr (Or.inr ⟨hrun, Or.inr (Or.inl rfl)⟩), fun ht => ?_⟩
      rcases ht with ht | ht | ht <;> rw [hrun] at ht <;> simp at ht
  | stopJobCall rc hs ha =>
      exact ⟨Or.inl rfl, fun _ => rfl⟩

/-- C2 witness: the initial PENDING state with the supervision task's
first step. -/
theorem C2_status_transitions_witness :
    ((JState.mk JobStatus.running Phase.awaitingProc ProcState.alive).status =
        jInit.status ∨
      (jInit.status = JobStatus.pending ∧
        (JState.mk JobStatus.running Phase.awaitingProc
          ProcState.alive).status = JobStatus.running) ∨
      (jInit.status = JobStatus.running ∧
        terminal (JState.mk JobStatus.running Phase.awaitingProc
          ProcState.alive).status)) ∧
    (terminal jInit.status →
      (JState.mk JobStatus.running Phase.awaitingProc ProcState.alive).status =
        jInit.status) :=
  C2_status_transitions jInit
    (JState.mk JobStatus.running Phase.awaitingProc ProcState.alive)
    Relation.ReflTransGen.refl (JStep.start jInit rfl)

end IotLoadTester
